import Mathlib

set_option maxRecDepth 100000

/-!
Shallow embedding of the hospital-finder pipeline from
`healthcare_agents/hospital_finder_agent.py`: the functions
`get_location_from_ip` and `find_nearby_hospitals`, with the behaviour of
the external services (IP geolocation, places search, places details) and
the process environment (API key) modelled as an explicit `Env` value, and
the outbound HTTP requests the code issues recorded as a trace of `Call`s.
Python floats are modelled as `Rat`; machine floating point plays no role
in the properties considered. Dictionary fields that the code reads with
`.get` are modelled as `Option` fields; a missing field read with `[...]`
raises a `KeyError`, modelled by the `Except` error channel.
-/

namespace MediMind

/-- Outcome of one HTTP request as seen by the Python code: either the
parsed JSON payload, or an exception (network failure, `raise_for_status`,
JSON decode error) carrying its message string. -/
inductive Outcome (α : Type) where
  | exc (msg : String)
  | ok (val : α)
deriving DecidableEq

/-- The fields of the ipinfo.io JSON document that the code reads
(`loc`, `city`, `region`); `none` models an absent key. -/
structure IpinfoJson where
  loc : Option String
  city : Option String
  region : Option String
deriving DecidableEq

/-- One element of the nearby-search `results` array; the code only reads
`place.get("place_id")`. -/
structure PlaceResult where
  place_id : Option String
deriving DecidableEq

/-- The fields of a place-details `result` object that the code reads.
`rating` is modelled as the rendered string form of the JSON value (a
number in practice), since the code only interpolates it into text.
`open_now` is `opening_hours.open_now`; it is `none` when either key is
absent, mirroring `get("opening_hours", {}).get("open_now")`. -/
structure HospitalInfo where
  name : Option String
  formatted_address : Option String
  formatted_phone_number : Option String
  rating : Option String
  website : Option String
  open_now : Option Bool
deriving DecidableEq

/-- A place-details JSON response: its `status` and `result` keys
(`none` models an absent key, whose `[...]` access raises `KeyError`). -/
structure DetailsResponse where
  status : Option String
  result : Option HospitalInfo
deriving DecidableEq

/-- A nearby-search JSON response: its `status` and `results` keys. -/
structure SearchResponse where
  status : Option String
  results : Option (List PlaceResult)
deriving DecidableEq

/-- The behaviour of everything outside the function under analysis:
the geolocation response, the `GOOGLE_PLACES_API_KEY` environment
variable, the nearby-search response, and the details response for each
`place_id`. -/
structure Env where
  ipinfo : Outcome IpinfoJson
  api_key : Option String
  search : Outcome SearchResponse
  details : String → Outcome DetailsResponse

/-- An outbound HTTP request issued by the code. -/
inductive Call where
  | geolocate
  | placesSearch (lat lng : Rat) (radius : Int) (key : String)
  | placesDetails (place_id : String) (key : String)
deriving DecidableEq

/-- Numeric value of a list of decimal-digit characters; `none` if any
character is not a digit. The empty list yields 0 (callers rule that
case out where Python would reject it). -/
def digits_val : List Char → Option Nat
  | [] => some 0
  | c :: cs =>
    if c.isDigit then (digits_val cs).map (fun n => (c.toNat - 48) * 10 ^ cs.length + n)
    else none

/-- Models Python `float(s)` (on the characters of `s`) for the plain
decimal literals that occur in an ipinfo `loc` field: optional sign,
integer digits, optional fractional part (at least one digit overall).
Exponent and special forms are outside the modelled grammar and are
treated as parse failures. -/
def parse_float (s : List Char) : Option Rat :=
  let p :=
    match s with
    | '-' :: r => (true, r)
    | '+' :: r => (false, r)
    | cs => (false, cs)
  match p.2.splitOn '.' with
  | [ip] =>
    if ip.isEmpty then none
    else (digits_val ip).map (fun n => if p.1 then -(n : Rat) else (n : Rat))
  | [ip, fp] =>
    if ip.isEmpty && fp.isEmpty then none
    else
      match digits_val ip, digits_val fp with
      | some n, some m =>
        some (if p.1 then -((n : Rat) + (m : Rat) / (10 : Rat) ^ fp.length)
              else (n : Rat) + (m : Rat) / (10 : Rat) ^ fp.length)
      | _, _ => none
  | _ => none

/-- Function `get_location_from_ip`: issue the geolocation request, parse the
`"lat,long"` field, derive the display label; any failure (exception,
missing or empty `loc`, malformed value) yields `(None, None, None)`. -/
def get_location_from_ip (env : Env) : Option Rat × Option Rat × Option String :=
  match env.ipinfo with
  | .exc _ => (none, none, none)
  | .ok data =>
    let loc := data.loc.getD ""
    if loc = "" then (none, none, none)
    else
      match (loc.data.splitOn ',').map parse_float with
      | [some la, some lo] =>
        (some la, some lo,
          some (data.city.getD "Unknown City" ++ ", " ++ data.region.getD "Unknown Region"))
      | _ => (none, none, none)

/-- Python truthiness of an optional float: `None` and `0.0` are falsy. -/
def truthy : Option Rat → Bool
  | none => false
  | some x => x != 0

/-- Python `str(...)` of an optional string (f-string interpolation). -/
def pyStr : Option String → String
  | none => "None"
  | some s => s

/-- The message of a Python `KeyError` for key `k`: `str(KeyError(k))` is
the key in single quotes. -/
def key_error (k : String) : String := "\x27" ++ k ++ "\x27"

def msg_no_location : String :=
  "❌ Could not detect your location automatically. Please check your internet connection."

def msg_no_key : String :=
  "❌ Google Places API key not found. Please set GOOGLE_PLACES_API_KEY environment variable."

def msg_places_error (st : String) : String :=
  "❌ Google Places API error: " ++ st

def msg_top_error (e : String) : String :=
  "❌ Error finding hospitals: " ++ e

/-- The per-hospital text block built in the loop body (the `hospital_text`
f-string of the source, including its leading and trailing newline), with
each `.get(..., fallback)` rendered as `Option.getD`. -/
def hospital_text (i : Nat) (info : HospitalInfo) : String :=
  "\n🏥 **" ++
  (toString i ++
   (". " ++
    (info.name.getD "Unknown Hospital" ++
     ("**\n📍 **Address:** " ++
      (info.formatted_address.getD "Address not available" ++
       ("\n📞 **Phone:** " ++
        (info.formatted_phone_number.getD "Phone not available" ++
         ("\n⭐ **Rating:** " ++
          (info.rating.getD "No rating" ++
           ("\n🌐 **Website:** " ++
            (info.website.getD "Website not available" ++
             ("\n🕒 **Status:** " ++
              ((if info.open_now = some true then "Open now" else "Status unknown") ++
               "\n")))))))))))))

/-- The loop over `places_data["results"][:10]` with `enumerate(..., 1)`:
for each place with a truthy `place_id`, issue the details request; a
non-"OK" details status skips the hit; an exception or a missing `status`
or `result` key aborts the loop with that error. Returns the accumulated
`hospital_text` blocks and the details calls issued. -/
def process_places (env : Env) (key : String) : List PlaceResult → Nat →
    Except String (List String) × List Call
  | [], _ => (.ok [], [])
  | place :: rest, i =>
    match place.place_id with
    | none => process_places env key rest (i + 1)
    | some pid =>
      if pid = "" then process_places env key rest (i + 1)
      else
        match env.details pid with
        | .exc m => (.error m, [Call.placesDetails pid key])
        | .ok d =>
          match d.status with
          | none => (.error (key_error "status"), [Call.placesDetails pid key])
          | some st =>
            if st = "OK" then
              match d.result with
              | none => (.error (key_error "result"), [Call.placesDetails pid key])
              | some info =>
                let r := process_places env key rest (i + 1)
                (r.1.map (fun ts => hospital_text i info :: ts),
                 Call.placesDetails pid key :: r.2)
            else
              let r := process_places env key rest (i + 1)
              (r.1, Call.placesDetails pid key :: r.2)

/-- The zero-facility report (`if not hospitals:` branch). -/
def zero_report (location_str : String) : String :=
  ("📍 **Location Detected:** " ++ location_str) ++
  "\n\n❌ No hospitals found in your area. You may need to expand your search radius."

/-- Models Python `str(radius/1000)` (true division producing a float) as
the exact decimal expansion with trailing zeros stripped and at least one
fractional digit, which coincides with the float repr for the moderate
radii in scope. -/
def km_str (radius : Int) : String :=
  let n := radius.natAbs
  let fr := n % 1000
  let ds := ((([fr / 100, fr / 10 % 10, fr % 10]).reverse.dropWhile (· == 0)).reverse)
  let ds := if ds.isEmpty then [0] else ds
  (if radius < 0 then "-" else "") ++ toString (n / 1000) ++ "." ++
    String.mk (ds.map (fun d => Char.ofNat (48 + d)))

/-- The final response template of the source (`response_text`), with
`chr(10).join(hospitals)` rendered as `String.intercalate`. -/
def full_report (location_str : String) (radius : Int) (hospitals : List String) : String :=
  ("🌍 **Your Location:** " ++ location_str) ++
  ("\n" ++
   (("🔍 **Search Radius:** " ++ (km_str radius ++ " km")) ++
    ("\n🏥 **Found " ++
     (toString hospitals.length ++
      (" hospitals near you:**\n\n" ++
       (String.intercalate "\n" hospitals ++
        ("\n\n" ++
         ("🚨 **EMERGENCY:** For medical emergencies, call **108** immediately (India Emergency Number)" ++
          ("\n\n" ++
           "💡 **Note:** This information is for reference only. For emergencies, always call 108 first before going to any hospital.")))))))))

/-- The body of the `try:` block of `find_nearby_hospitals`: either the
returned string or the message of an uncaught exception, together with the
outbound requests issued along the way. -/
def find_pipeline (env : Env) (radius : Int) : Except String String × List Call :=
  let lls := get_location_from_ip env
  if !(truthy lls.1) || !(truthy lls.2.1) then (.ok msg_no_location, [Call.geolocate])
  else
    match env.api_key with
    | none => (.ok msg_no_key, [Call.geolocate])
    | some key =>
      if key = "" then (.ok msg_no_key, [Call.geolocate])
      else
        let la := lls.1.getD 0
        let lo := lls.2.1.getD 0
        let tr := [Call.geolocate, Call.placesSearch la lo radius key]
        match env.search with
        | .exc m => (.error m, tr)
        | .ok resp =>
          match resp.status with
          | none => (.error (key_error "status"), tr)
          | some st =>
            if st = "OK" then
              match resp.results with
              | none => (.error (key_error "results"), tr)
              | some rs =>
                let pr := process_places env key (rs.take 10) 1
                match pr.1 with
                | .error m => (.error m, tr ++ pr.2)
                | .ok hospitals =>
                  if hospitals.isEmpty then
                    (.ok (zero_report (pyStr lls.2.2)), tr ++ pr.2)
                  else
                    (.ok (full_report (pyStr lls.2.2) radius hospitals), tr ++ pr.2)
            else (.ok (msg_places_error st), tr)

/-- The `place_id` of a hit when Python's `if place_id:` accepts it:
present and non-empty. -/
def present_id (p : PlaceResult) : Option String :=
  match p.place_id with
  | some pid => if pid = "" then none else some pid
  | none => none

/-- A hit whose details interaction raises no exception in the loop body:
either its id is skipped, or the details response arrives, has a `status`
key, and when that status is "OK" also has a `result` key. -/
def benignB (env : Env) (p : PlaceResult) : Bool :=
  match present_id p with
  | none => true
  | some pid =>
    match env.details pid with
    | .ok d =>
      match d.status with
      | some st => if st = "OK" then d.result.isSome else true
      | none => false
    | .exc _ => false

/-- The text block the loop contributes for the hit at (1-based) rank `i`,
if any: a block is produced exactly when the id is present and the details
fetch returns status "OK" with a `result` object. -/
def hit_render (env : Env) (i : Nat) (p : PlaceResult) : Option String :=
  match present_id p with
  | none => none
  | some pid =>
    match env.details pid with
    | .ok d =>
      match d.status with
      | some st => if st = "OK" then d.result.map (hospital_text i) else none
      | none => none
    | .exc _ => none

/-- Whether a hit contributes an entry to the report. -/
def yields_entry (env : Env) (p : PlaceResult) : Bool :=
  match present_id p with
  | none => false
  | some pid =>
    match env.details pid with
    | .ok d =>
      match d.status with
      | some st => st = "OK" && d.result.isSome
      | none => false
    | .exc _ => false

/-- Function `find_nearby_hospitals`: the pipeline wrapped in the
`try/except Exception` of the source, which converts any exception to the
"Error finding hospitals" message. The second component is the trace of
outbound HTTP requests issued by the invocation. -/
def find_nearby_hospitals (env : Env) (radius : Int := 5000) : String × List Call :=
  match find_pipeline env radius with
  | (.ok s, tr) => (s, tr)
  | (.error e, tr) => (msg_top_error e, tr)

/-! ## General lemmas about the loop and the pipeline -/

/-- When every hit in the list is benign, the loop neither raises nor
reorders: it returns exactly the per-hit blocks of `hit_render`, indexed by
rank, and issues exactly one details request per accepted id, in list
order. -/
theorem process_places_eq (env : Env) (key : String) :
    ∀ (places : List PlaceResult) (i : Nat),
    places.all (benignB env) = true →
    process_places env key places i =
      (Except.ok ((List.enumFrom i places).filterMap (fun q => hit_render env q.1 q.2)),
       (places.filterMap present_id).map (fun pid => Call.placesDetails pid key)) := by
  intro places
  induction places with
  | nil => intro i _; rfl
  | cons p rest ih =>
    intro i hall
    rw [List.all_cons, Bool.and_eq_true] at hall
    obtain ⟨hp, hrest⟩ := hall
    have hr := ih (i + 1) hrest
    simp only [process_places, List.enumFrom, List.filterMap_cons, hit_render, present_id,
      benignB] at *
    cases hpid : p.place_id with
    | none => simp [hpid] at hp ⊢; exact hr
    | some pid =>
      by_cases hemp : pid = ""
      · simp [hpid, hemp] at hp ⊢; exact hr
      · simp only [hpid, hemp, if_false, ite_false] at hp ⊢
        cases hdet : env.details pid with
        | exc m => simp [hdet] at hp
        | ok d =>
          cases hst : d.status with
          | none => simp [hdet, hst] at hp
          | some st =>
            by_cases hok : st = "OK"
            · cases hres : d.result with
              | none => simp [hdet, hst, hok, hres] at hp
              | some info =>
                simp [hdet, hst, hok, hres, hr, Except.map]
            · simp [hdet, hst, hok, hr]

/-- A hit contributes a block exactly when `yields_entry` holds, so the
number of blocks equals the number of contributing hits. -/
theorem length_hit_renders (env : Env) :
    ∀ (places : List PlaceResult) (i : Nat),
    ((List.enumFrom i places).filterMap (fun q => hit_render env q.1 q.2)).length =
      (places.filter (yields_entry env)).length := by
  intro places
  induction places with
  | nil => intro i; rfl
  | cons p rest ih =>
    intro i
    simp only [List.enumFrom, List.filterMap_cons, List.filter_cons]
    have hiff : (hit_render env i p).isSome = yields_entry env p := by
      cases hpres : present_id p with
      | none => simp [hit_render, yields_entry, hpres]
      | some pid =>
        cases hdet : env.details pid with
        | exc m => simp [hit_render, yields_entry, hpres, hdet]
        | ok d =>
          cases hst : d.status with
          | none => simp [hit_render, yields_entry, hpres, hdet, hst]
          | some st =>
            by_cases hok : st = "OK"
            · cases hres : d.result <;>
                simp [hit_render, yields_entry, hpres, hdet, hst, hok, hres]
            · simp [hit_render, yields_entry, hpres, hdet, hst, hok]
    cases hhr : hit_render env i p with
    | none =>
      rw [hhr] at hiff
      simp only [← hiff, Option.isSome_none, if_false, ite_false, Bool.false_eq_true]
      exact ih (i + 1)
    | some t =>
      rw [hhr] at hiff
      simp only [← hiff, Option.isSome_some, if_true, ite_true, List.length_cons]
      rw [ih (i + 1)]

/-- Splitting a list by a predicate preserves total length. -/
theorem length_filter_split {α : Type} (p : α → Bool) (l : List α) :
    (l.filter p).length + (l.filter (fun a => !(p a))).length = l.length := by
  induction l with
  | nil => rfl
  | cons a l ih =>
    cases hpa : p a <;> simp [List.filter_cons, hpa] <;> omega

/-- Early exit: a falsy latitude or longitude (absent, or exactly 0)
yields the location-error message after only the geolocation request. -/
theorem find_loc_falsy (env : Env) (radius : Int)
    (h : (!(truthy (get_location_from_ip env).1)
          || !(truthy (get_location_from_ip env).2.1)) = true) :
    find_nearby_hospitals env radius = (msg_no_location, [Call.geolocate]) := by
  simp only [find_nearby_hospitals, find_pipeline, h]
  rfl

/-- Early exit: with a truthy resolved location but no (or an empty) API
key, the key-error message is returned after only the geolocation
request. -/
theorem find_no_key (env : Env) (radius : Int) (la lo : Rat) (L : Option String)
    (hloc : get_location_from_ip env = (some la, some lo, L))
    (hla : la ≠ 0) (hlo : lo ≠ 0)
    (hkey : env.api_key = none ∨ env.api_key = some "") :
    find_nearby_hospitals env radius = (msg_no_key, [Call.geolocate]) := by
  rcases hkey with hkey | hkey <;>
    simp [find_nearby_hospitals, find_pipeline, hloc, truthy, bne_iff_ne, hla, hlo, hkey]

/-- Past the guards, a search response with a non-"OK" status yields the
provider-error message carrying that status, after the geolocation and the
single search request. -/
theorem find_status_error (env : Env) (radius : Int) (la lo : Rat) (L : Option String)
    (key : String) (resp : SearchResponse) (st : String)
    (hloc : get_location_from_ip env = (some la, some lo, L))
    (hla : la ≠ 0) (hlo : lo ≠ 0)
    (hkey : env.api_key = some key) (hk : key ≠ "")
    (hsearch : env.search = .ok resp) (hst : resp.status = some st) (hne : st ≠ "OK") :
    find_nearby_hospitals env radius =
      (msg_places_error st, [Call.geolocate, Call.placesSearch la lo radius key]) := by
  simp [find_nearby_hospitals, find_pipeline, hloc, truthy, bne_iff_ne, hla, hlo, hkey, hk,
    hsearch, hst, hne]

/-- Past the guards, an "OK" search whose retained hits are all benign
yields the assembled report (zero or full) and issues exactly the
geolocation request, one search request, and one details request per
accepted id among the first ten hits, in provider order. -/
theorem find_ok_shape (env : Env) (radius : Int) (la lo : Rat) (L : String)
    (key : String) (rs : List PlaceResult)
    (hloc : get_location_from_ip env = (some la, some lo, some L))
    (hla : la ≠ 0) (hlo : lo ≠ 0)
    (hkey : env.api_key = some key) (hk : key ≠ "")
    (hsearch : env.search = .ok { status := some "OK", results := some rs })
    (hben : (rs.take 10).all (benignB env) = true) :
    find_nearby_hospitals env radius =
      ((if ((List.enumFrom 1 (rs.take 10)).filterMap (fun q => hit_render env q.1 q.2)).isEmpty
        then zero_report L
        else full_report L radius
          ((List.enumFrom 1 (rs.take 10)).filterMap (fun q => hit_render env q.1 q.2))),
       Call.geolocate :: Call.placesSearch la lo radius key ::
         ((rs.take 10).filterMap present_id).map (fun pid => Call.placesDetails pid key)) := by
  have hp := process_places_eq env key (rs.take 10) 1 hben
  simp only [find_nearby_hospitals, find_pipeline, hloc, truthy, bne_iff_ne, hla, hlo, hkey,
    hk, hsearch, hp, pyStr]
  by_cases hE :
      ((List.enumFrom 1 (rs.take 10)).filterMap (fun q => hit_render env q.1 q.2)).isEmpty = true <;>
    simp [truthy, bne_iff_ne, hla, hlo, hk, hE]

/-! ## Substring containment -/

/-- Relation stating that `needle` occurs as a contiguous substring of
`hay`. -/
def contains_str (hay needle : String) : Prop := needle.data <:+: hay.data

instance contains_str_dec (hay needle : String) : Decidable (contains_str hay needle) :=
  List.decidableInfix needle.data hay.data

theorem contains_str_append_left (a b n : String) (h : contains_str b n) :
    contains_str (a ++ b) n := by
  rcases h with ⟨s, t, ht⟩
  exact ⟨a.data ++ s, t, by simp [← ht]⟩

theorem contains_str_append_right (a b n : String) (h : contains_str a n) :
    contains_str (a ++ b) n := by
  rcases h with ⟨s, t, ht⟩
  exact ⟨s, t ++ b.data, by simp [← ht]⟩

theorem contains_str_head (n t : String) : contains_str (n ++ t) n :=
  ⟨[], t.data, by simp⟩

theorem contains_str_refl (s : String) : contains_str s s :=
  ⟨[], [], by simp⟩

/-! ## Characters of a rendered natural number -/

theorem digitChar_isDigit (n : Nat) (h : n < 10) : (Nat.digitChar n).isDigit = true := by
  interval_cases n <;> decide

theorem toDigitsCore_digits :
    ∀ (fuel n : Nat) (acc : List Char), (∀ c ∈ acc, c.isDigit = true) →
    ∀ c ∈ Nat.toDigitsCore 10 fuel n acc, c.isDigit = true := by
  intro fuel
  induction fuel with
  | zero => intro n acc hacc; simpa [Nat.toDigitsCore] using hacc
  | succ f ih =>
    intro n acc hacc
    have hd : ∀ c ∈ (Nat.digitChar (n % 10) :: acc), c.isDigit = true := by
      intro c hc
      rcases List.mem_cons.mp hc with h | h
      · subst h; exact digitChar_isDigit _ (Nat.mod_lt _ (by norm_num))
      · exact hacc c h
    by_cases hz : n / 10 = 0 <;> simp only [Nat.toDigitsCore, hz, if_true, if_false,
      ite_true, ite_false]
    · exact hd
    · exact ih _ _ hd

/-- Every character of the decimal rendering of a natural number is a
digit. -/
theorem toString_nat_digits (n : Nat) : ∀ c ∈ (toString n).data, c.isDigit = true :=
  toDigitsCore_digits (n + 1) n [] (by simp)

/-! ## Concrete data used in witnesses and counterexamples -/

/-- A details result with every optional field absent. -/
def info_absent : HospitalInfo :=
  { name := none, formatted_address := none, formatted_phone_number := none,
    rating := none, website := none, open_now := none }

/-- A fully populated details result. -/
def info_city : HospitalInfo :=
  { name := some "City Hospital", formatted_address := some "1 Main Rd",
    formatted_phone_number := some "12345", rating := some "4.5",
    website := some "example.org", open_now := some true }

/-- A geolocation response resolving to integer coordinates (19, 72) with
label "Mumbai, Maharashtra". -/
def ipinfo_mumbai : IpinfoJson :=
  { loc := some "19,72", city := some "Mumbai", region := some "Maharashtra" }

/-- Location resolves, but the API key is absent. -/
def env_no_key : Env :=
  { ipinfo := .ok ipinfo_mumbai, api_key := none,
    search := .exc "unused", details := fun _ => .exc "unused" }

/-- Location resolves to latitude exactly 0. -/
def env_equator : Env :=
  { ipinfo := .ok { loc := some "0,72", city := some "Accra", region := some "Greater Accra" },
    api_key := some "K", search := .exc "unused", details := fun _ => .exc "unused" }

/-! ## C1 -/

/-- C1, counterexample: with the API key absent but location resolving,
`find_nearby_hospitals` does issue an outbound request (the IP-geolocation
request) before failing with the key-missing message, refuting the claim
that zero outbound requests are issued. -/
theorem c1_counterexample :
    env_no_key.api_key = none ∧
    find_nearby_hospitals env_no_key 5000 = (msg_no_key, [Call.geolocate]) ∧
    [Call.geolocate] ≠ ([] : List Call) := by
  refine ⟨rfl, by decide, by decide⟩

/-- C1 (amended): with the key absent and the location resolved truthy,
`find_nearby_hospitals` returns the key-missing error before any
places-API request, but after the IP-geolocation request: the trace is
exactly the one geolocation call. -/
theorem c1_amended (env : Env) (radius : Int) (la lo : Rat) (L : Option String)
    (hloc : get_location_from_ip env = (some la, some lo, L))
    (hla : la ≠ 0) (hlo : lo ≠ 0) (hkey : env.api_key = none) :
    find_nearby_hospitals env radius = (msg_no_key, [Call.geolocate]) :=
  find_no_key env radius la lo L hloc hla hlo (Or.inl hkey)

/-- C1, witness for the amended theorem at `env_no_key`. -/
theorem c1_witness :
    get_location_from_ip env_no_key = (some 19, some 72, some "Mumbai, Maharashtra") ∧
    (19 : Rat) ≠ 0 ∧ (72 : Rat) ≠ 0 ∧ env_no_key.api_key = none ∧
    find_nearby_hospitals env_no_key 5000 = (msg_no_key, [Call.geolocate]) :=
  ⟨by decide, by decide, by decide, rfl,
   c1_amended env_no_key 5000 19 72 (some "Mumbai, Maharashtra")
     (by decide) (by decide) (by decide) rfl⟩

/-! ## C9 -/

/-- C9: a successfully resolved location whose latitude or longitude is
exactly 0 is treated as absent by the `if not lat or not lng` guard:
`find_nearby_hospitals` returns the location-not-detected message and
issues no places-search call (the trace is the geolocation call only). -/
theorem c9_zero_coordinate_guard (env : Env) (radius : Int) (la lo : Rat) (L : String)
    (hloc : get_location_from_ip env = (some la, some lo, some L))
    (hzero : la = 0 ∨ lo = 0) :
    find_nearby_hospitals env radius = (msg_no_location, [Call.geolocate]) := by
  apply find_loc_falsy
  rcases hzero with h | h <;> simp [hloc, truthy, h]

/-- C9, witness: at `env_equator` the location resolves to latitude 0 and
the function reports "could not detect your location" after only the
geolocation request. -/
theorem c9_witness :
    get_location_from_ip env_equator = (some 0, some 72, some "Accra, Greater Accra") ∧
    find_nearby_hospitals env_equator 5000 = (msg_no_location, [Call.geolocate]) :=
  ⟨by decide,
   c9_zero_coordinate_guard env_equator 5000 0 72 "Accra, Greater Accra"
     (by decide) (Or.inl rfl)⟩

/-! ## C3 and C4: provider status mapping -/

/-- Provider search answers "ZERO_RESULTS". -/
def env_zero_results : Env :=
  { ipinfo := .ok ipinfo_mumbai, api_key := some "K",
    search := .ok { status := some "ZERO_RESULTS", results := some [] },
    details := fun _ => .exc "unused" }

/-- Provider search answers "OVER_QUERY_LIMIT". -/
def env_over_limit : Env :=
  { ipinfo := .ok ipinfo_mumbai, api_key := some "K",
    search := .ok { status := some "OVER_QUERY_LIMIT", results := none },
    details := fun _ => .exc "unused" }

/-- Provider search answers "OK" with an empty results array. -/
def env_ok_empty : Env :=
  { ipinfo := .ok ipinfo_mumbai, api_key := some "K",
    search := .ok { status := some "OK", results := some [] },
    details := fun _ => .exc "unused" }

/-- C3, counterexample: when the provider answers "ZERO_RESULTS",
`find_nearby_hospitals` returns the provider-error message, not a
zero-facility report carrying the resolved location label: the output is
not the zero-facility report and does not contain the label at all. -/
theorem c3_counterexample :
    (find_nearby_hospitals env_zero_results 5000).1 = msg_places_error "ZERO_RESULTS" ∧
    (find_nearby_hospitals env_zero_results 5000).1 ≠ zero_report "Mumbai, Maharashtra" ∧
    ¬ contains_str (find_nearby_hospitals env_zero_results 5000).1 "Mumbai" := by
  refine ⟨by decide, by decide, by decide⟩

/-- C3 (amended): a "ZERO_RESULTS" search status is handled by the generic
non-"OK" branch: `find_nearby_hospitals` returns the provider-error
message carrying "ZERO_RESULTS" (the zero-facility report with the
location label is produced only for status "OK" with no renderable
results). -/
theorem c3_amended (env : Env) (radius : Int) (la lo : Rat) (L : Option String)
    (key : String) (resp : SearchResponse)
    (hloc : get_location_from_ip env = (some la, some lo, L))
    (hla : la ≠ 0) (hlo : lo ≠ 0)
    (hkey : env.api_key = some key) (hk : key ≠ "")
    (hsearch : env.search = .ok resp) (hst : resp.status = some "ZERO_RESULTS") :
    find_nearby_hospitals env radius =
      (msg_places_error "ZERO_RESULTS", [Call.geolocate, Call.placesSearch la lo radius key]) :=
  find_status_error env radius la lo L key resp "ZERO_RESULTS"
    hloc hla hlo hkey hk hsearch hst (by decide)

/-- C3, witness for the amended theorem at `env_zero_results`. -/
theorem c3_witness :
    get_location_from_ip env_zero_results = (some 19, some 72, some "Mumbai, Maharashtra") ∧
    env_zero_results.api_key = some "K" ∧
    find_nearby_hospitals env_zero_results 5000 =
      (msg_places_error "ZERO_RESULTS", [Call.geolocate, Call.placesSearch 19 72 5000 "K"]) :=
  ⟨by decide, rfl,
   c3_amended env_zero_results 5000 19 72 (some "Mumbai, Maharashtra") "K"
     { status := some "ZERO_RESULTS", results := some [] }
     (by decide) (by decide) (by decide) rfl (by decide) rfl rfl⟩

/-- C4: past the guards, (a) every search response with a non-"OK" status
string makes `find_nearby_hospitals` fail with the provider-error message
carrying exactly that status string (in particular "OVER_QUERY_LIMIT"),
and (b) a response with status "OK" and an empty results array yields the
zero-facility report with the location label — an empty result, not an
error. -/
theorem c4_status_mapping (env : Env) (radius : Int) (la lo : Rat) (L : String)
    (key : String)
    (hloc : get_location_from_ip env = (some la, some lo, some L))
    (hla : la ≠ 0) (hlo : lo ≠ 0)
    (hkey : env.api_key = some key) (hk : key ≠ "") :
    (∀ (resp : SearchResponse) (st : String),
      env.search = .ok resp → resp.status = some st → st ≠ "OK" →
      (find_nearby_hospitals env radius).1 = msg_places_error st) ∧
    (env.search = .ok { status := some "OK", results := some [] } →
      (find_nearby_hospitals env radius).1 = zero_report L) := by
  constructor
  · intro resp st hsearch hst hne
    rw [find_status_error env radius la lo (some L) key resp st
      hloc hla hlo hkey hk hsearch hst hne]
  · intro hsearch
    rw [find_ok_shape env radius la lo L key [] hloc hla hlo hkey hk hsearch rfl]
    rfl

/-- C4, witness: both parts applied at concrete environments —
"OVER_QUERY_LIMIT" yields the provider-error message carrying it, and
"OK" with an empty array yields the zero-facility report. -/
theorem c4_witness :
    (find_nearby_hospitals env_over_limit 5000).1 = msg_places_error "OVER_QUERY_LIMIT" ∧
    (find_nearby_hospitals env_ok_empty 5000).1 = zero_report "Mumbai, Maharashtra" :=
  ⟨(c4_status_mapping env_over_limit 5000 19 72 "Mumbai, Maharashtra" "K"
      (by decide) (by decide) (by decide) rfl (by decide)).1
    { status := some "OVER_QUERY_LIMIT", results := none } "OVER_QUERY_LIMIT"
      rfl rfl (by decide),
   (c4_status_mapping env_ok_empty 5000 19 72 "Mumbai, Maharashtra" "K"
      (by decide) (by decide) (by decide) rfl (by decide)).2 rfl⟩

/-! ## C2: a failed detail fetch -/

/-- Two hits; the details fetch for the first answers "NOT_FOUND", the
second succeeds. -/
def env_one_bad : Env :=
  { ipinfo := .ok ipinfo_mumbai, api_key := some "K",
    search := .ok { status := some "OK",
                    results := some [{ place_id := some "p1" }, { place_id := some "p2" }] },
    details := fun pid =>
      if pid = "p1" then .ok { status := some "NOT_FOUND", result := none }
      else .ok { status := some "OK", result := some info_city } }

/-- C2, counterexample: with N = 2 retained hits and a detail-fetch
failure (status "NOT_FOUND") on the first, the report contains only one
entry — the failed hit is silently dropped, not included as an incomplete
entry — refuting the claim that the report still has N entries. -/
theorem c2_counterexample :
    (find_nearby_hospitals env_one_bad 5000).1 =
      full_report "Mumbai, Maharashtra" 5000 [hospital_text 2 info_city] ∧
    contains_str (find_nearby_hospitals env_one_bad 5000).1 "Found 1 hospitals" ∧
    ¬ contains_str (find_nearby_hospitals env_one_bad 5000).1 "Found 2 hospitals" := by
  refine ⟨by decide, by decide, by decide⟩

/-- C2 (amended): for a search that retains N hits (N ≤ 10, at least 2),
all benign, when the detail fetch fails (non-"OK" status) for exactly one
hit, `find_nearby_hospitals` still returns a report — no error is raised
and the batch is not aborted — but the report has N − 1 entries: the
failed hit is silently dropped from the output rather than included as an
incomplete entry. -/
theorem c2_amended (env : Env) (radius : Int) (la lo : Rat) (L : String)
    (key : String) (rs : List PlaceResult)
    (hloc : get_location_from_ip env = (some la, some lo, some L))
    (hla : la ≠ 0) (hlo : lo ≠ 0)
    (hkey : env.api_key = some key) (hk : key ≠ "")
    (hsearch : env.search = .ok { status := some "OK", results := some rs })
    (hlen : rs.length ≤ 10) (htwo : 2 ≤ rs.length)
    (hben : rs.all (benignB env) = true)
    (hone : (rs.filter (fun p => !(yields_entry env p))).length = 1) :
    (find_nearby_hospitals env radius).1 =
      full_report L radius ((List.enumFrom 1 rs).filterMap (fun q => hit_render env q.1 q.2)) ∧
    ((List.enumFrom 1 rs).filterMap (fun q => hit_render env q.1 q.2)).length =
      rs.length - 1 := by
  have htake : rs.take 10 = rs := List.take_of_length_le hlen
  have hlenH : ((List.enumFrom 1 rs).filterMap (fun q => hit_render env q.1 q.2)).length =
      rs.length - 1 := by
    rw [length_hit_renders env rs 1]
    have hsplit := length_filter_split (yields_entry env) rs
    omega
  refine ⟨?_, hlenH⟩
  have hshape := find_ok_shape env radius la lo L key rs hloc hla hlo hkey hk hsearch
    (by rw [htake]; exact hben)
  rw [htake] at hshape
  rw [hshape]
  have hne : ¬ ((List.enumFrom 1 rs).filterMap (fun q => hit_render env q.1 q.2)).isEmpty
      = true := by
    rw [List.isEmpty_iff_length_eq_zero, hlenH]
    omega
  simp [hne]

/-- C2, witness for the amended theorem at `env_one_bad`: two hits, one
failed detail fetch, a one-entry report. -/
theorem c2_witness :
    get_location_from_ip env_one_bad = (some 19, some 72, some "Mumbai, Maharashtra") ∧
    (find_nearby_hospitals env_one_bad 5000).1 =
      full_report "Mumbai, Maharashtra" 5000
        ((List.enumFrom 1 [{ place_id := some "p1" }, { place_id := some "p2" }]).filterMap
          (fun q => hit_render env_one_bad q.1 q.2)) ∧
    ((List.enumFrom 1 [({ place_id := some "p1" } : PlaceResult), { place_id := some "p2" }]).filterMap
      (fun q => hit_render env_one_bad q.1 q.2)).length = 2 - 1 := by
  refine ⟨by decide, ?_, ?_⟩
  · exact (c2_amended env_one_bad 5000 19 72 "Mumbai, Maharashtra" "K"
      [{ place_id := some "p1" }, { place_id := some "p2" }]
      (by decide) (by decide) (by decide) rfl (by decide) rfl
      (by decide) (by decide) (by decide) (by decide)).1
  · exact (c2_amended env_one_bad 5000 19 72 "Mumbai, Maharashtra" "K"
      [{ place_id := some "p1" }, { place_id := some "p2" }]
      (by decide) (by decide) (by decide) rfl (by decide) rfl
      (by decide) (by decide) (by decide) (by decide)).2

/-! ## C5: truncation before enrichment, provider order preserved -/

/-- Eleven search hits; the details service would raise for the eleventh,
but the code must never contact it. -/
def rs_eleven : List PlaceResult :=
  [{ place_id := some "p1" }, { place_id := some "p2" }, { place_id := some "p3" },
   { place_id := some "p4" }, { place_id := some "p5" }, { place_id := some "p6" },
   { place_id := some "p7" }, { place_id := some "p8" }, { place_id := some "p9" },
   { place_id := some "p10" }, { place_id := some "p11" }]

def env_eleven : Env :=
  { ipinfo := .ok ipinfo_mumbai, api_key := some "K",
    search := .ok { status := some "OK", results := some rs_eleven },
    details := fun pid =>
      if pid = "p11" then .exc "boom"
      else .ok { status := some "OK", result := some info_absent } }

/-- C5: past the guards, with an "OK" search returning `rs` and all
retained hits benign, the hit list is truncated to the first 10 before any
detail enrichment — the trace shows a details request exactly for each
accepted id among `rs.take 10`, in provider order, and none beyond — and
the facilities of the report are exactly the per-hit renderings of
`rs.take 10` in provider search-rank order (an order-preserving
`filterMap` over the enumerated list; no re-sorting of any kind). -/
theorem c5_truncation_and_order (env : Env) (radius : Int) (la lo : Rat) (L : String)
    (key : String) (rs : List PlaceResult)
    (hloc : get_location_from_ip env = (some la, some lo, some L))
    (hla : la ≠ 0) (hlo : lo ≠ 0)
    (hkey : env.api_key = some key) (hk : key ≠ "")
    (hsearch : env.search = .ok { status := some "OK", results := some rs })
    (hben : (rs.take 10).all (benignB env) = true) :
    find_nearby_hospitals env radius =
      ((if ((List.enumFrom 1 (rs.take 10)).filterMap (fun q => hit_render env q.1 q.2)).isEmpty
        then zero_report L
        else full_report L radius
          ((List.enumFrom 1 (rs.take 10)).filterMap (fun q => hit_render env q.1 q.2))),
       Call.geolocate :: Call.placesSearch la lo radius key ::
         ((rs.take 10).filterMap present_id).map (fun pid => Call.placesDetails pid key)) :=
  find_ok_shape env radius la lo L key rs hloc hla hlo hkey hk hsearch hben

/-- C5, witness at `env_eleven`: the eleventh hit receives no details
request (its service stub would raise), and the report lists the first ten
hits in provider order. -/
theorem c5_witness :
    find_nearby_hospitals env_eleven 5000 =
      ((if ((List.enumFrom 1 (rs_eleven.take 10)).filterMap
            (fun q => hit_render env_eleven q.1 q.2)).isEmpty
        then zero_report "Mumbai, Maharashtra"
        else full_report "Mumbai, Maharashtra" 5000
          ((List.enumFrom 1 (rs_eleven.take 10)).filterMap
            (fun q => hit_render env_eleven q.1 q.2))),
       Call.geolocate :: Call.placesSearch 19 72 5000 "K" ::
         ((rs_eleven.take 10).filterMap present_id).map
           (fun pid => Call.placesDetails pid "K")) ∧
    Call.placesDetails "p11" "K" ∉ (find_nearby_hospitals env_eleven 5000).2 := by
  have h := c5_truncation_and_order env_eleven 5000 19 72 "Mumbai, Maharashtra" "K"
    rs_eleven (by decide) (by decide) (by decide) rfl (by decide) rfl (by decide)
  refine ⟨h, ?_⟩
  rw [h]
  decide

/-! ## C6: no coordinate-range validation -/

/-- A geolocation response whose `loc` parses to the out-of-range pair
(200, 300). -/
def env_wrong : Env :=
  { ipinfo := .ok { loc := some "200,300", city := some "Nowhere", region := some "Atlantis" },
    api_key := none, search := .exc "unused", details := fun _ => .exc "unused" }

/-- C6, counterexample: `get_location_from_ip` returns the out-of-range
pair (200, 300) as a resolved location — latitude 200 > 90 and longitude
300 > 180 — instead of failing, refuting the claim that coordinates
violating the bounds produce `NotResolvedError`. -/
theorem c6_counterexample :
    get_location_from_ip env_wrong = (some 200, some 300, some "Nowhere, Atlantis") ∧
    ¬ ((200 : Rat) ≤ 90) ∧ ¬ ((300 : Rat) ≤ 180) := by
  refine ⟨by decide, by decide, by decide⟩

/-- C6 (amended): `get_location_from_ip` performs no range validation at
all: whenever the `loc` field splits on "," into exactly two parseable
floats, those values are returned as the resolved coordinates unchanged,
together with the "city, region" label — whether or not they lie in
[-90,90] × [-180,180]. -/
theorem c6_amended (env : Env) (data : IpinfoJson) (la lo : Rat)
    (henv : env.ipinfo = .ok data)
    (hparse : ((data.loc.getD "").data.splitOn ',').map parse_float = [some la, some lo]) :
    get_location_from_ip env =
      (some la, some lo,
       some (data.city.getD "Unknown City" ++ ", " ++ data.region.getD "Unknown Region")) := by
  have hne : ¬ (data.loc.getD "" = "") := by
    intro h0
    rw [h0] at hparse
    have hval : ((("" : String).data.splitOn ',').map parse_float) = [none] := by decide
    rw [hval] at hparse
    simp at hparse
  simp [get_location_from_ip, henv, hne, hparse]

/-- C6, witness for the amended theorem at `env_wrong`. -/
theorem c6_witness :
    ((({ loc := some "200,300", city := some "Nowhere", region := some "Atlantis" } :
        IpinfoJson).loc.getD "").data.splitOn ',').map parse_float =
      [some (200 : Rat), some (300 : Rat)] ∧
    get_location_from_ip env_wrong = (some 200, some 300, some "Nowhere, Atlantis") :=
  ⟨by decide,
   c6_amended env_wrong
     { loc := some "200,300", city := some "Nowhere", region := some "Atlantis" }
     200 300 rfl (by decide)⟩

/-! ## C7: rendering an all-absent detail record -/

/-- The entry text for a detail record with every optional field absent:
all fallbacks, with only the rank varying. -/
theorem hospital_text_absent (i : Nat) :
    hospital_text i info_absent =
      "\n🏥 **" ++
      (toString i ++
       ". Unknown Hospital**\n📍 **Address:** Address not available\n📞 **Phone:** Phone not available\n⭐ **Rating:** No rating\n🌐 **Website:** Website not available\n🕒 **Status:** Status unknown\n") := by
  simp only [hospital_text, info_absent, Option.getD_none]
  congr 2

/-- C7: rendering a facility detail with every optional field absent is
total and degrades to the five documented fallback strings — the rendered
text contains "Address not available", "Phone not available", "No rating",
"Website not available" and "Status unknown" — and contains no placeholder
tokens (no brace characters at all). -/
theorem c7_render_fallbacks (i : Nat) :
    contains_str (hospital_text i info_absent) "Address not available" ∧
    contains_str (hospital_text i info_absent) "Phone not available" ∧
    contains_str (hospital_text i info_absent) "No rating" ∧
    contains_str (hospital_text i info_absent) "Website not available" ∧
    contains_str (hospital_text i info_absent) "Status unknown" ∧
    '\x7b' ∉ (hospital_text i info_absent).data ∧
    '\x7d' ∉ (hospital_text i info_absent).data := by
  rw [hospital_text_absent i]
  refine ⟨?_, ?_, ?_, ?_, ?_, ?_, ?_⟩
  · exact contains_str_append_left _ _ _ (contains_str_append_left _ _ _ (by decide))
  · exact contains_str_append_left _ _ _ (contains_str_append_left _ _ _ (by decide))
  · exact contains_str_append_left _ _ _ (contains_str_append_left _ _ _ (by decide))
  · exact contains_str_append_left _ _ _ (contains_str_append_left _ _ _ (by decide))
  · exact contains_str_append_left _ _ _ (contains_str_append_left _ _ _ (by decide))
  · intro hmem
    simp only [String.data_append, List.mem_append] at hmem
    rcases hmem with h | h | h
    · exact absurd h (by decide)
    · exact absurd (toString_nat_digits i _ h) (by decide)
    · exact absurd h (by decide)
  · intro hmem
    simp only [String.data_append, List.mem_append] at hmem
    rcases hmem with h | h | h
    · exact absurd h (by decide)
    · exact absurd (toString_nat_digits i _ h) (by decide)
    · exact absurd h (by decide)

/-- C7, witness: the fallback-containment and brace-freedom facts
instantiated at rank 1. -/
theorem c7_witness :
    contains_str (hospital_text 1 info_absent) "Address not available" ∧
    '\x7b' ∉ (hospital_text 1 info_absent).data :=
  ⟨(c7_render_fallbacks 1).1, (c7_render_fallbacks 1).2.2.2.2.2.1⟩

/-! ## C8: report header and footer -/

/-- C8, counterexample: the zero-facility report is a successfully
produced report, yet its rendered text states neither the search radius in
kilometers nor the emergency-contact line — refuting the claim that every
successfully produced report contains both. -/
theorem c8_counterexample :
    (find_nearby_hospitals env_ok_empty 5000).1 = zero_report "Mumbai, Maharashtra" ∧
    ¬ contains_str (find_nearby_hospitals env_ok_empty 5000).1 " km" ∧
    ¬ contains_str (find_nearby_hospitals env_ok_empty 5000).1 "108" ∧
    ¬ contains_str (find_nearby_hospitals env_ok_empty 5000).1 "EMERGENCY" := by
  refine ⟨by decide, by decide, by decide, by decide⟩

/-- C8 (amended): the report with at least one facility contains the
location header, the search radius expressed in kilometers and the fixed
emergency-contact line; the zero-facility report contains the detected
location header with its label, but omits the radius line and the
emergency-contact line rather than degrading them to fallback text. -/
theorem c8_report_header_footer :
    (∀ (L : String) (radius : Int) (hs : List String),
      contains_str (full_report L radius hs) "🌍 **Your Location:** " ∧
      contains_str (full_report L radius hs)
        ("🔍 **Search Radius:** " ++ (km_str radius ++ " km")) ∧
      contains_str (full_report L radius hs)
        "🚨 **EMERGENCY:** For medical emergencies, call **108** immediately (India Emergency Number)") ∧
    (∀ L : String, contains_str (zero_report L) ("📍 **Location Detected:** " ++ L)) ∧
    (¬ contains_str (zero_report "Mumbai, Maharashtra") " km" ∧
     ¬ contains_str (zero_report "Mumbai, Maharashtra") "108" ∧
     ¬ contains_str (zero_report "Mumbai, Maharashtra") "EMERGENCY") := by
  refine ⟨fun L radius hs => ⟨?_, ?_, ?_⟩, fun L => ?_, by decide, by decide, by decide⟩
  · apply contains_str_append_right
    exact contains_str_head _ _
  · apply contains_str_append_left
    apply contains_str_append_left
    exact contains_str_head _ _
  · apply contains_str_append_left
    apply contains_str_append_left
    apply contains_str_append_left
    apply contains_str_append_left
    apply contains_str_append_left
    apply contains_str_append_left
    apply contains_str_append_left
    apply contains_str_append_left
    exact contains_str_head _ _
  · apply contains_str_append_right
    exact contains_str_refl _

/-- C8, witness: the header facts instantiated at a concrete report. -/
theorem c8_witness :
    contains_str (full_report "X, Y" 5000 ["h"]) "🌍 **Your Location:** " ∧
    contains_str (full_report "X, Y" 5000 ["h"])
      ("🔍 **Search Radius:** " ++ (km_str 5000 ++ " km")) ∧
    contains_str (zero_report "X, Y") ("📍 **Location Detected:** " ++ "X, Y") :=
  ⟨(c8_report_header_footer.1 "X, Y" 5000 ["h"]).1,
   (c8_report_header_footer.1 "X, Y" 5000 ["h"]).2.1,
   c8_report_header_footer.2.1 "X, Y"⟩

/-! ## C10: totality of the public interface -/

/-- C10: `find_nearby_hospitals` is total at its public interface: for
every radius and every behaviour of the external services — exceptions,
malformed responses, missing fields — it returns a string; when the
pipeline raises, the exception is caught and converted to the
"Error finding hospitals" message, never propagated. -/
theorem c10_total_interface (env : Env) (radius : Int) :
    (∃ s, (find_pipeline env radius).1 = Except.ok s ∧
      (find_nearby_hospitals env radius).1 = s) ∨
    (∃ e, (find_pipeline env radius).1 = Except.error e ∧
      (find_nearby_hospitals env radius).1 = msg_top_error e) := by
  cases h : find_pipeline env radius with
  | mk r tr =>
    cases r with
    | ok s => exact Or.inl ⟨s, by simp [h], by simp [find_nearby_hospitals, h]⟩
    | error e => exact Or.inr ⟨e, by simp [h], by simp [find_nearby_hospitals, h]⟩

/-- C10, witness: the totality fact instantiated at a concrete
environment and radius. -/
theorem c10_witness :
    (∃ s, (find_pipeline env_ok_empty 5000).1 = Except.ok s ∧
      (find_nearby_hospitals env_ok_empty 5000).1 = s) ∨
    (∃ e, (find_pipeline env_ok_empty 5000).1 = Except.error e ∧
      (find_nearby_hospitals env_ok_empty 5000).1 = msg_top_error e) :=
  c10_total_interface env_ok_empty 5000

end MediMind
